import Mathlib

set_option autoImplicit false

/-
Shallow embedding of the interaction-dispatch and pagination engine of the
repository (src/yuyo/reactions.py and src/yuyo/components.py).

Modelling conventions:
* Discord snowflakes (user ids, message ids) are `Nat`; timestamps and
  timedeltas are `Int` (seconds); `datetime.now()` is passed in explicitly as
  the `now` argument of each operation.
* Python `None` becomes `none`; `hikari.UNDEFINED` in an entry tuple also
  becomes `none` (both are absent values for our purposes).
* Exceptions are explicit: each operation returns an outcome record whose
  `error` field is `some e` when the Python code raises `e` at that point,
  and which also carries the post-state (Python mutates `self` in place, so
  mutations performed before a raise are visible afterwards).
* Async callbacks are identified by opaque numeric ids; "the callback was
  invoked / scheduled" is recorded in the outcome rather than executed.
* `asyncio.Lock` usage is not modelled: the semantics here are the
  single-threaded sequential semantics of one delivery at a time.
* Network calls made through the hikari REST client (message create, edit,
  delete, reaction add/remove) are external collaborators; they are modelled
  as succeeding, and the Backoff retry loops around them therefore run their
  body exactly once.
-/

namespace Yuyo

/-- Python exception values raised by the modelled code. -/
inductive PyErr where
  /-- a `RuntimeError(msg)`; also what CPython raises for a bare `raise` with
  no active exception ("No active exception to re-raise"). -/
  | runtimeError (msg : String)
  /-- a `KeyError` from indexing a `dict` with an absent key or `dict.pop`
  without a default. -/
  | keyError
  /-- a `LookupError(msg)`. -/
  | lookupError (msg : String)
  /-- a `ValueError(msg)`. -/
  | valueError (msg : String)
  /-- a `TypeError(msg)`. -/
  | typeError (msg : String)
  /-- the library's own `HandlerClosed` control-flow exception. -/
  | handlerClosed
  /-- an `asyncio.InvalidStateError` from `Future.set_result` on a future
  that is already resolved. -/
  | invalidStateError
  /-- an `AssertionError` from a failed `assert`. -/
  | assertionError
  /-- an `IndexError` from indexing a list out of range. -/
  | indexError
  deriving DecidableEq, Repr

/-- Lookup in a Python `dict` (`d.get(k)` / `k in d`); keys are unique so the
first match is the only match. -/
def dictGet {α β : Type} [DecidableEq α] : List (α × β) → α → Option β
  | [], _ => none
  | (k, v) :: rest, a => if k = a then some v else dictGet rest a

/-- Assignment `d[k] = v` in a Python `dict`: replaces the existing entry for
`k` or appends a fresh one. -/
def dictSet {α β : Type} [DecidableEq α] : List (α × β) → α → β → List (α × β)
  | [], a, b => [(a, b)]
  | (k, v) :: rest, a, b => if k = a then (a, b) :: rest else (k, v) :: dictSet rest a b

/-- Removal of a key from a Python `dict` (the erasing part of `pop`). -/
def dictErase {α β : Type} [DecidableEq α] : List (α × β) → α → List (α × β)
  | [], _ => []
  | (k, v) :: rest, a => if k = a then rest else (k, v) :: dictErase rest a

/-- Trigger key of a reaction callback: a unicode emoji name or a custom
emoji's numeric snowflake (`typing.Union[str, int]` in the source). -/
inductive EmojiKey where
  | name (s : String)
  | custom (id : Nat)
  deriving DecidableEq, Repr

/-- The data of a `hikari` `ReactionAddEvent` / `ReactionDeleteEvent` that the
handlers read: acting user, target message and the emoji. -/
structure ReactionEvent where
  userId : Nat
  messageId : Nat
  emojiId : Option Nat
  emojiName : Option String
  deriving DecidableEq, Repr

/-- Key resolution `emoji_identifier = event.emoji_id or event.emoji_name`
(reactions.py line 338): Python `or` yields the left operand when it is
truthy (a non-`None`, non-zero id), else the right operand; a `None` result
then fails the `assert`, which is modelled by `none` here. -/
def resolve_key (e : ReactionEvent) : Option EmojiKey :=
  match e.emojiId with
  | some i => if i ≠ 0 then some (.custom i) else e.emojiName.map .name
  | none => e.emojiName.map .name

/-- State of a `ReactionHandler` (reactions.py lines 184-210): authorized
users, the callback table, the expiry clock and the bound message. Callbacks
are opaque ids. -/
structure ReactionHandler where
  authors : List Nat
  callbacks : List (EmojiKey × Nat)
  lastTriggered : Int
  message : Option Nat
  timeout : Int
  deriving DecidableEq, Repr

/-- The `expired` property (reactions.py line 230):
`self.timeout < now - self._last_triggered`. -/
def ReactionHandler.expired (h : ReactionHandler) (now : Int) : Bool :=
  decide (h.timeout < now - h.lastTriggered)

/-- Result of delivering one reaction event to a handler: the handler state
afterwards, which callback (if any) was invoked, and the exception (if any)
that propagated out. -/
structure EventOutcome where
  handler : ReactionHandler
  invoked : Option Nat
  error : Option PyErr
  deriving DecidableEq, Repr

/-- The `ReactionHandler.on_reaction_event` method (reactions.py lines
329-350). When `expired` it schedules `close()` (which sets `_message` to
`None`) and executes a bare `raise`; with no active exception CPython turns
that into `RuntimeError("No active exception to re-raise")`. Otherwise an
unbound handler, or an event author outside a non-empty `_authors` set, is
ignored; then the emoji key is resolved (a `None` key fails the `assert`),
an unregistered key is ignored, and finally the matched callback runs under
the lock and `_last_triggered` is updated to now. -/
def ReactionHandler.on_reaction_event (h : ReactionHandler) (e : ReactionEvent) (now : Int) :
    EventOutcome :=
  if h.expired now then
    { handler := { h with message := none }, invoked := none,
      error := some (.runtimeError "No active exception to re-raise") }
  else if h.message = none ∨ (h.authors ≠ [] ∧ e.userId ∉ h.authors) then
    { handler := h, invoked := none, error := none }
  else
    match resolve_key e with
    | none => { handler := h, invoked := none, error := some .assertionError }
    | some k =>
      match dictGet h.callbacks k with
      | none => { handler := h, invoked := none, error := none }
      | some cb =>
        { handler := { h with lastTriggered := now }, invoked := some cb, error := none }

/-- State of a `ReactionClient` (reactions.py lines 695-729): the user-id
blacklist and the message-id → handler registry. -/
structure ReactionClient where
  blacklist : List Nat
  listeners : List (Nat × ReactionHandler)
  deriving DecidableEq, Repr

/-- Result of one registry-level event delivery. -/
structure ClientOutcome where
  client : ReactionClient
  invoked : Option Nat
  error : Option PyErr
  deriving DecidableEq, Repr

/-- The `ReactionClient._on_reaction_event` method (reactions.py lines
743-753): blacklisted users are dropped, the handler is looked up by the
event's message id, and only a `HandlerClosed` raised by the handler is
caught (popping the entry); any other exception propagates, leaving the
(possibly mutated) handler registered. -/
def ReactionClient.on_reaction_event (c : ReactionClient) (e : ReactionEvent) (now : Int) :
    ClientOutcome :=
  if e.userId ∈ c.blacklist then { client := c, invoked := none, error := none }
  else
    match dictGet c.listeners e.messageId with
    | none => { client := c, invoked := none, error := none }
    | some h =>
      let o := h.on_reaction_event e now
      match o.error with
      | some .handlerClosed =>
        { client := { c with listeners := dictErase c.listeners e.messageId },
          invoked := o.invoked, error := none }
      | err =>
        { client := { c with listeners := dictSet c.listeners e.messageId o.handler },
          invoked := o.invoked, error := err }

/-- Result of `ReactionClient.remove_handler`. -/
structure RemoveOutcome where
  removed : Option ReactionHandler
  client : ReactionClient
  error : Option PyErr
  deriving DecidableEq, Repr

/-- The `ReactionClient.remove_handler` method (reactions.py lines 806-824):
`self._listeners.pop(snowflakes.Snowflake(message))` with no default, so an
absent key raises `KeyError` instead of returning `None`. -/
def ReactionClient.remove_handler (c : ReactionClient) (messageId : Nat) : RemoveOutcome :=
  match dictGet c.listeners messageId with
  | none => { removed := none, client := c, error := some .keyError }
  | some h =>
    { removed := some h, client := { c with listeners := dictErase c.listeners messageId },
      error := none }

/-- A paginator entry (`EntryT`, reactions.py line 88): the optional message
content and the optional embed (embeds are identified by an opaque id). -/
abbrev Entry := Option String × Option Nat

/-- The emoji used to go back to the first entry. -/
def LEFT_DOUBLE_TRIANGLE : String := "⏮️"

/-- The emoji used to go back an entry. -/
def LEFT_TRIANGLE : String := "◀️"

/-- The emoji used to close a menu. -/
def STOP_SQUARE : String := "⏹️"

/-- The emoji used to continue to the next entry. -/
def RIGHT_TRIANGLE : String := "▶️"

/-- The emoji used for the skip to last entry button. -/
def RIGHT_DOUBLE_TRIANGLE : String := "⏭️"

/-- Default `triggers` argument of `ReactionPaginator.__init__`
(reactions.py lines 408-412). -/
def DEFAULT_TRIGGERS : List String := [LEFT_TRIANGLE, STOP_SQUARE, RIGHT_TRIANGLE]

/-- State of a `ReactionPaginator` (reactions.py lines 373-437): the handler
fields plus the materialized page buffer, the cursor index, the unconsumed
tail of the source iterator and the configured trigger emojis. -/
structure ReactionPaginator where
  authors : List Nat
  lastTriggered : Int
  message : Option Nat
  timeout : Int
  buffer : List Entry
  index : Nat
  iterator : List Entry
  triggers : List String
  deriving DecidableEq, Repr

/-- The `ReactionPaginator.__init__` constructor (reactions.py lines
403-437): empty buffer, cursor `0`, unbound, `_last_triggered` set to the
construction instant. -/
def mkReactionPaginator (iterator : List Entry) (authors : List Nat) (triggers : List String)
    (timeout : Int) (constructedAt : Int) : ReactionPaginator :=
  { authors := authors, lastTriggered := constructedAt, message := none, timeout := timeout,
    buffer := [], index := 0, iterator := iterator, triggers := triggers }

/-- The inherited `expired` property for the paginator. -/
def ReactionPaginator.expired (p : ReactionPaginator) (now : Int) : Bool :=
  decide (p.timeout < now - p.lastTriggered)

/-- Modelled from the spec: `pagination.seek_iterator` lives in the
repository's `pagination` module, which is not under src/; per the spec it
pulls exactly one more item from the source sequence, returning the default
(`None`, here the `none` case) when the sequence is exhausted. -/
def seek_iterator : List Entry → Option (Entry × List Entry)
  | [] => none
  | e :: rest => some (e, rest)

/-- Result of one paginator navigation callback: the paginator state
afterwards, the entry whose content was rendered into the bound message by
`_edit_message` (or by `rest.create_message`), if any, and the exception (if
any) that propagated. -/
structure PagOutcome where
  paginator : ReactionPaginator
  displayed : Option Entry
  error : Option PyErr
  deriving DecidableEq, Repr

/-- The `ReactionPaginator._edit_message` method (reactions.py lines
439-462): a no-op when the paginator is unbound, otherwise a Backoff-retried
edit of the bound message with the entry's content and embed (the network
edit is modelled as succeeding). -/
def ReactionPaginator.edit_message (p : ReactionPaginator) (entry : Entry) : PagOutcome :=
  match p.message with
  | none => { paginator := p, displayed := none, error := none }
  | some _ => { paginator := p, displayed := some entry, error := none }

/-- The `ReactionPaginator._get_next_entry` method (reactions.py lines
490-500): when the buffer already holds the next position
(`len(buffer) >= index + 2`) the cursor advances and the buffered entry is
reused; otherwise one item is pulled from the source iterator, the cursor
advances and the item is appended. Note the cursor is incremented even on
the very first pull. -/
def ReactionPaginator.get_next_entry (p : ReactionPaginator) :
    ReactionPaginator × Option Entry :=
  if p.buffer.length ≥ p.index + 2 then
    ({ p with index := p.index + 1 }, p.buffer.get? (p.index + 1))
  else
    match seek_iterator p.iterator with
    | none => (p, none)
    | some (entry, rest) =>
      ({ p with index := p.index + 1, buffer := p.buffer ++ [entry], iterator := rest },
        some entry)

/-- The `ReactionPaginator._on_first` callback (reactions.py lines 473-476):
when the cursor is non-zero it re-displays `buffer[0]` (without moving the
cursor); indexing an empty buffer would raise `IndexError`. -/
def ReactionPaginator.on_first (p : ReactionPaginator) : PagOutcome :=
  if p.index ≠ 0 then
    match p.buffer.get? 0 with
    | none => { paginator := p, displayed := none, error := some .indexError }
    | some entry => p.edit_message entry
  else
    { paginator := p, displayed := none, error := none }

/-- The `ReactionPaginator._on_previous` callback (reactions.py lines
507-511): when the cursor is positive it is decremented and the entry now
under it is displayed. -/
def ReactionPaginator.on_previous (p : ReactionPaginator) : PagOutcome :=
  if p.index > 0 then
    let p1 := { p with index := p.index - 1 }
    match p1.buffer.get? p1.index with
    | none => { paginator := p1, displayed := none, error := some .indexError }
    | some entry => p1.edit_message entry
  else
    { paginator := p, displayed := none, error := none }

/-- The `ReactionPaginator._on_next` callback (reactions.py lines 502-505):
displays the entry produced by `_get_next_entry`, if any. -/
def ReactionPaginator.on_next (p : ReactionPaginator) : PagOutcome :=
  match p.get_next_entry with
  | (p1, some entry) => p1.edit_message entry
  | (p1, none) => { paginator := p1, displayed := none, error := none }

/-- The `ReactionPaginator._on_last` callback (reactions.py lines 478-488):
the whole remaining iterator is drained into the buffer; then, if the buffer
is non-empty (matching on `getLast?` encodes both the `if self._buffer`
truthiness test and the `buffer[-1]` access), the cursor is set to
`len(buffer) - 1` and the last entry is displayed. -/
def ReactionPaginator.on_last (p : ReactionPaginator) : PagOutcome :=
  let p1 := { p with buffer := p.buffer ++ p.iterator, iterator := ([] : List Entry) }
  match p1.buffer.getLast? with
  | some entry =>
    ReactionPaginator.edit_message { p1 with index := p1.buffer.length - 1 } entry
  | none => { paginator := p1, displayed := none, error := none }

/-- The `ReactionPaginator._on_disable` callback (reactions.py lines
464-471): the message is detached (its deletion is scheduled as a background
task) and `HandlerClosed` is raised in every case. -/
def ReactionPaginator.on_disable (p : ReactionPaginator) : PagOutcome :=
  { paginator := { p with message := none }, displayed := none, error := some .handlerClosed }

/-- The five navigation callbacks a paginator can register. -/
inductive PagOp where
  | first
  | previous
  | disable
  | next
  | last
  deriving DecidableEq, Repr

/-- Dispatch of one navigation operation to its callback body. -/
def run_pag_op : PagOp → ReactionPaginator → PagOutcome
  | .first, p => p.on_first
  | .previous, p => p.on_previous
  | .disable, p => p.on_disable
  | .next, p => p.on_next
  | .last, p => p.on_last

/-- The `_callbacks` table built by `ReactionPaginator.__init__` (reactions.py
lines 424-437): each of the five fixed emojis is registered exactly when it
is in the configured `triggers` collection. -/
def paginator_callback_for (triggers : List String) (k : EmojiKey) : Option PagOp :=
  match k with
  | .custom _ => none
  | .name s =>
    if s ∈ triggers then
      if s = LEFT_DOUBLE_TRIANGLE then some .first
      else if s = LEFT_TRIANGLE then some .previous
      else if s = STOP_SQUARE then some .disable
      else if s = RIGHT_TRIANGLE then some .next
      else if s = RIGHT_DOUBLE_TRIANGLE then some .last
      else none
    else none

/-- The inherited `on_reaction_event` as executed by a `ReactionPaginator`
(reactions.py lines 329-350 with the callback table of lines 424-437): same
control flow as `ReactionHandler.on_reaction_event`, but the matched
callback is one of the concrete navigation operations; `_last_triggered` is
updated only when the callback returns without raising. -/
def ReactionPaginator.on_reaction_event (p : ReactionPaginator) (e : ReactionEvent)
    (now : Int) : PagOutcome :=
  if p.expired now then
    { paginator := { p with message := none }, displayed := none,
      error := some (.runtimeError "No active exception to re-raise") }
  else if p.message = none ∨ (p.authors ≠ [] ∧ e.userId ∉ p.authors) then
    { paginator := p, displayed := none, error := none }
  else
    match resolve_key e with
    | none => { paginator := p, displayed := none, error := some .assertionError }
    | some k =>
      match paginator_callback_for p.triggers k with
      | none => { paginator := p, displayed := none, error := none }
      | some op =>
        let o := run_pag_op op p
        match o.error with
        | none => { o with paginator := { o.paginator with lastTriggered := now } }
        | some _ => o

/-- Result of `ReactionPaginator.create_message`: the paginator state, the id
of the message created through the REST client (if the call got that far),
the entry rendered into it, and the exception (if any). -/
structure CreateOutcome where
  paginator : ReactionPaginator
  created : Option Nat
  displayed : Option Entry
  error : Option PyErr
  deriving DecidableEq, Repr

/-- The `ReactionPaginator.create_message` method (reactions.py lines
625-692): it raises `RuntimeError` when a message is already bound, pulls
the first entry via `_get_next_entry`, raises `ValueError` when the source
yielded nothing, and otherwise creates the message (Backoff-retried REST
call, modelled as succeeding with the fresh id `newMessageId`) and opens the
handler on it (binding `_message`; reaction-marker setup is an external side
effect modelled as succeeding). -/
def ReactionPaginator.create_message (p : ReactionPaginator) (newMessageId : Nat) :
    CreateOutcome :=
  if p.message ≠ none then
    { paginator := p, created := none, displayed := none,
      error := some (.runtimeError "ReactionPaginator is already running") }
  else
    match p.get_next_entry with
    | (p1, none) =>
      { paginator := p1, created := none, displayed := none,
        error := some (.valueError "ReactionPaginator iterator yielded no pages.") }
    | (p1, some entry) =>
      { paginator := { p1 with message := some newMessageId }, created := some newMessageId,
        displayed := some entry, error := none }

/-- An interaction response builder resolved into the response future
(components.py lines 134 and 239-251): a deferred builder or a message
builder. Builder fields other than content and flags are not read by the
modelled control flow and are omitted. -/
inductive ResponseBuilder where
  | deferredBuilder (flags : Int)
  | messageBuilder (content : Option String) (flags : Int)
  deriving DecidableEq, Repr

/-- An initial-response REST call issued through
`interaction.create_initial_response` (components.py lines 137-139 and
208-220). -/
inductive NetCall where
  | createInitialDeferred (flags : Int)
  | createInitialMessage (content : Option String) (flags : Int)
  deriving DecidableEq, Repr

/-- State of a `Context` (components.py lines 88-101). The response future
is `none` for the gateway delivery path, `some none` for a pending REST-path
future and `some (some r)` once resolved with `r`. -/
structure Context where
  ephemeralDefault : Bool
  hasResponded : Bool
  hasBeenDeferred : Bool
  lastResponseId : Option Nat
  responseFuture : Option (Option ResponseBuilder)
  deriving DecidableEq, Repr

/-- The `Context._get_flags` helper (components.py lines 115-120):
`MessageFlag.EPHEMERAL = 64`, `MessageFlag.NONE = 0`. -/
def Context.get_flags (c : Context) (flags : Option Int) : Int :=
  match flags with
  | some f => f
  | none => if c.ephemeralDefault then 64 else 0

/-- Result of one `Context` response operation: the context afterwards, the
REST calls issued, and the exception (if any). -/
structure CtxOutcome where
  ctx : Context
  calls : List NetCall
  error : Option PyErr
  deriving DecidableEq, Repr

/-- The `Context.defer` method (components.py lines 122-139), run under the
response lock: it raises `RuntimeError` only when `_has_been_deferred` is
already set; otherwise it sets `_has_been_deferred` and either resolves the
response future with a deferred builder (`Future.set_result` raises
`InvalidStateError` when the future is already resolved) or issues a
deferred initial response over REST. -/
def Context.defer (c : Context) (flags : Option Int) : CtxOutcome :=
  let fl := c.get_flags flags
  if c.hasBeenDeferred then
    { ctx := c, calls := [], error := some (.runtimeError "Context has already been responded to") }
  else
    let c1 := { c with hasBeenDeferred := true }
    match c.responseFuture with
    | some none =>
      { ctx := { c1 with responseFuture := some (some (.deferredBuilder fl)) }, calls := [],
        error := none }
    | some (some r) =>
      { ctx := { c1 with responseFuture := some (some r) }, calls := [],
        error := some .invalidStateError }
    | none =>
      { ctx := c1, calls := [.createInitialDeferred fl], error := none }

/-- The `Context._create_initial_response` method (components.py lines
179-251), run under the response lock by its public wrapper
`create_initial_response` (lines 253-283): it raises `RuntimeError` when an
initial response was already created or when the context has been deferred;
otherwise it sets `_has_responded` and either issues the initial response
over REST (gateway path) or resolves the response future with a message
builder (`set_result` raising `InvalidStateError` when already resolved). -/
def Context.create_initial_response (c : Context) (content : Option String)
    (flags : Option Int) : CtxOutcome :=
  let fl := c.get_flags flags
  if c.hasResponded then
    { ctx := c, calls := [], error := some (.runtimeError "Initial response has already been created") }
  else if c.hasBeenDeferred then
    { ctx := c, calls := [],
      error := some (.runtimeError
        "edit_initial_response must be used to set the initial response after a context has been deferred") }
  else
    let c1 := { c with hasResponded := true }
    match c.responseFuture with
    | none =>
      { ctx := c1, calls := [.createInitialMessage content fl], error := none }
    | some none =>
      { ctx := { c1 with responseFuture := some (some (.messageBuilder content fl)) },
        calls := [], error := none }
    | some (some r) =>
      { ctx := { c1 with responseFuture := some (some r) }, calls := [],
        error := some .invalidStateError }

/-- The data of a `hikari.ComponentInteraction` read by the dispatch path:
the target message id and the component's custom id. -/
structure ComponentInteraction where
  messageId : Nat
  customId : String
  deriving DecidableEq, Repr

/-- State of a `ComponentExecutor` (components.py lines 578-592): the custom
id → callback table, callbacks being opaque ids. -/
structure ComponentExecutor where
  idToCallback : List (String × Nat)
  deriving DecidableEq, Repr

/-- Result of `ComponentExecutor.execute`: the callback task spawned (if
any) and the exception (if any). -/
structure ExecOutcome where
  scheduled : Option Nat
  error : Option PyErr
  deriving DecidableEq, Repr

/-- The `ComponentExecutor.execute` method (components.py lines 598-603): it
builds a `Context` and looks the callback up with
`self._id_to_callback[interaction.custom_id]` — a plain `dict` subscript, so
an unregistered custom id raises `KeyError`; a registered one has its
callback spawned as a task (`asyncio.create_task`), and `execute` returns
without awaiting it. -/
def ComponentExecutor.execute (ex : ComponentExecutor) (i : ComponentInteraction) :
    ExecOutcome :=
  match dictGet ex.idToCallback i.customId with
  | none => { scheduled := none, error := some .keyError }
  | some cb => { scheduled := some cb, error := none }

/-- State of a `ComponentClient` (components.py lines 496-507): the message
id → executor registry. -/
structure ComponentClient where
  executors : List (Nat × ComponentExecutor)
  deriving DecidableEq, Repr

/-- Result of `ComponentClient.on_rest_request`: the response payload
returned (if any), whether the execution task was spawned, and the exception
(if any). -/
structure RestOutcome where
  response : Option ResponseBuilder
  executionStarted : Bool
  error : Option PyErr
  deriving DecidableEq, Repr

/-- The `ComponentClient.on_rest_request` method (components.py lines
549-561). With no executor registered for the interaction's message id it
raises `LookupError("Not found")`. With one registered it creates a pending
future, spawns the execution task, and then executes
`done, pending = asyncio.wait((future, execution_task), ...)` — the `await`
is missing, so the right-hand side is the un-awaited coroutine object and
the tuple unpacking raises `TypeError` ("cannot unpack non-iterable
coroutine object") before any race is run; the subsequent
`if future in done: return await future` and the
`RuntimeError("Execution finished without setting a response")` raise are
unreachable. -/
def ComponentClient.on_rest_request (c : ComponentClient) (i : ComponentInteraction) :
    RestOutcome :=
  match dictGet c.executors i.messageId with
  | none =>
    { response := none, executionStarted := false, error := some (.lookupError "Not found") }
  | some _ =>
    { response := none, executionStarted := true,
      error := some (.typeError "cannot unpack non-iterable coroutine object") }

/-! Concrete instances used by the claim theorems. -/

/-- The three fixed pages of the C1 scenario. -/
def c1_pages : List Entry := [(some "a", none), (some "b", none), (some "c", none)]

/-- The C1 paginator: pages `a`, `b`, `c`, authors `u1 = 1`, the default
triggers, a 30 second timeout, constructed at time 0. -/
def c1_p0 : ReactionPaginator := mkReactionPaginator c1_pages [1] DEFAULT_TRIGGERS 30 0

/-- A "next" reaction by user 1 on the bound message. -/
def c1_next_event : ReactionEvent :=
  { userId := 1, messageId := 99, emojiId := none, emojiName := some RIGHT_TRIANGLE }

/-- A "previous" reaction by user 1 on the bound message. -/
def c1_prev_event : ReactionEvent :=
  { userId := 1, messageId := 99, emojiId := none, emojiName := some LEFT_TRIANGLE }

/-- The paginator after `create_message` displayed the first page. -/
def c1_after_create : CreateOutcome := c1_p0.create_message 99

/-- First "next" trigger. -/
def c1_step1 : PagOutcome := c1_after_create.paginator.on_reaction_event c1_next_event 1

/-- Second "next" trigger. -/
def c1_step2 : PagOutcome := c1_step1.paginator.on_reaction_event c1_next_event 2

/-- The "previous" trigger after the two "next" triggers. -/
def c1_step3 : PagOutcome := c1_step2.paginator.on_reaction_event c1_prev_event 3

/-- C1: evaluation of the scenario on the code. `create_message` displays
page `a` but already advances the cursor to 1, so after "next", "next"
(displaying `b` then `c`) the "previous" trigger moves the cursor from 3
back to 2 and re-displays `c` — not `b` as the claim states; likewise a
single "next" followed by one "previous" re-displays `b`, not page 0's
content `a`. -/
theorem c1_scenario_eval :
    c1_after_create.displayed = some (some "a", none) ∧
    c1_after_create.paginator.index = 1 ∧
    c1_step1.displayed = some (some "b", none) ∧
    c1_step2.displayed = some (some "c", none) ∧
    c1_step3.displayed = some (some "c", none) ∧
    c1_step3.displayed ≠ some (some "b", none) ∧
    (c1_step1.paginator.on_reaction_event c1_prev_event 2).displayed = some (some "b", none) := by
  decide

/-- An executor with one callback (id 7) registered for custom id "button". -/
def c2_executor : ComponentExecutor := { idToCallback := [("button", 7)] }

/-- A component client with `c2_executor` registered for message id 10. -/
def c2_client : ComponentClient := { executors := [(10, c2_executor)] }

/-- A synchronous interaction for the registered message id. -/
def c2_interaction : ComponentInteraction := { messageId := 10, customId := "button" }

/-- A synchronous interaction for an unregistered message id. -/
def c2_missing : ComponentInteraction := { messageId := 11, customId := "button" }

/-- C2: evaluation of the synchronous delivery path on the code. For a
registered message id `on_rest_request` raises `TypeError` at the
`done, pending = asyncio.wait(...)` line (the `await` is missing), returning
no response payload and never reaching the
`RuntimeError("Execution finished without setting a response")` protocol
violation report; the unregistered-id path does fail with
`LookupError("Not found")` as claimed. -/
theorem c2_rest_request_eval :
    (c2_client.on_rest_request c2_interaction).error
        = some (.typeError "cannot unpack non-iterable coroutine object") ∧
    (c2_client.on_rest_request c2_interaction).response = none ∧
    (c2_client.on_rest_request c2_interaction).error
        ≠ some (.runtimeError "Execution finished without setting a response") ∧
    (c2_client.on_rest_request c2_missing).error = some (.lookupError "Not found") := by
  decide

/-- A handler whose timeout (5) has elapsed since `lastTriggered` (0) by
time 100, bound to message 1 with a callback for emoji "x". -/
def c3_handler : ReactionHandler :=
  { authors := [], callbacks := [(.name "x", 3)], lastTriggered := 0, message := some 1,
    timeout := 5 }

/-- A reaction event for the expired handler's message. -/
def c3_event : ReactionEvent :=
  { userId := 2, messageId := 1, emojiId := none, emojiName := some "x" }

/-- A reaction client with the expired handler registered for message 1. -/
def c3_client : ReactionClient := { blacklist := [], listeners := [(1, c3_handler)] }

/-- C3: evaluation of expiry delivery on the code. The expired branch of
`on_reaction_event` executes a bare `raise` with no active exception, which
CPython reports as `RuntimeError("No active exception to re-raise")` — not
the documented `HandlerClosed` — so the registry's `except HandlerClosed`
does not fire: the error propagates and the handler's entry stays in the
registry mapping. -/
theorem c3_expired_event_eval :
    (c3_handler.on_reaction_event c3_event 100).error
        = some (.runtimeError "No active exception to re-raise") ∧
    (c3_handler.on_reaction_event c3_event 100).error ≠ some .handlerClosed ∧
    (c3_handler.on_reaction_event c3_event 100).invoked = none ∧
    (c3_client.on_reaction_event c3_event 100).error
        = some (.runtimeError "No active exception to re-raise") ∧
    dictGet (c3_client.on_reaction_event c3_event 100).client.listeners 1 ≠ none := by
  decide

/-- C4: for every handler, an event delivered while the handler is unbound
(after `close()`), or authored by a user outside a non-empty authorized set,
invokes no callback and never updates `last_triggered`; and whenever the
handler is not expired the delivery is a complete no-op: unchanged state and
no error (the expired case is the expiry signal the claim excepts). -/
theorem c4_closed_or_unauthorized_no_callback (h : ReactionHandler) (e : ReactionEvent)
    (now : Int) (hcase : h.message = none ∨ (h.authors ≠ [] ∧ e.userId ∉ h.authors)) :
    (h.on_reaction_event e now).invoked = none ∧
    (h.on_reaction_event e now).handler.lastTriggered = h.lastTriggered ∧
    (h.expired now = false →
      h.on_reaction_event e now = { handler := h, invoked := none, error := none }) := by
  unfold ReactionHandler.on_reaction_event
  by_cases hexp : h.expired now = true
  · simp [hexp]
  · simp [hexp, hcase]

/-- A closed (unbound) handler for the C4 witness. -/
def c4_handler : ReactionHandler :=
  { authors := [5], callbacks := [(.name "x", 1)], lastTriggered := 0, message := none,
    timeout := 30 }

/-- An event delivered to the closed handler. -/
def c4_event : ReactionEvent :=
  { userId := 9, messageId := 1, emojiId := none, emojiName := some "x" }

/-- Witness for C4 at the closed handler `c4_handler` and time 1. -/
theorem c4_closed_or_unauthorized_no_callback_witness :
    (c4_handler.on_reaction_event c4_event 1).invoked = none ∧
    (c4_handler.on_reaction_event c4_event 1).handler.lastTriggered = c4_handler.lastTriggered ∧
    (c4_handler.expired 1 = false →
      c4_handler.on_reaction_event c4_event 1 = { handler := c4_handler, invoked := none, error := none }) :=
  c4_closed_or_unauthorized_no_callback c4_handler c4_event 1 (Or.inl rfl)

/-- An executor with an empty callback table. -/
def c5_executor : ComponentExecutor := { idToCallback := [] }

/-- An interaction whose custom id is registered nowhere. -/
def c5_interaction : ComponentInteraction := { messageId := 4, customId := "unknown" }

/-- C5 counterexample: the claim says that an event whose trigger key has no
registered callback "raises no error" for the component executor's
`execute` too, but `execute` indexes `_id_to_callback` with a plain `dict`
subscript and raises `KeyError` at a concrete unregistered custom id. -/
theorem c5_counterexample : (c5_executor.execute c5_interaction).error ≠ none := by decide

/-- C5 as amended: for a non-expired reaction handler, an event whose
resolved trigger key has no registered callback is a complete no-op (no
callback, no state change, no error); the component executor's `execute`,
however, invokes no callback but raises `KeyError` for an unregistered
custom id. -/
theorem c5_amended_unregistered_key :
    (∀ (h : ReactionHandler) (e : ReactionEvent) (now : Int) (k : EmojiKey),
      h.expired now = false → resolve_key e = some k → dictGet h.callbacks k = none →
      h.on_reaction_event e now = { handler := h, invoked := none, error := none }) ∧
    (∀ (ex : ComponentExecutor) (i : ComponentInteraction),
      dictGet ex.idToCallback i.customId = none →
      ex.execute i = { scheduled := none, error := some .keyError }) := by
  constructor
  · intro h e now k hexp hk hcb
    unfold ReactionHandler.on_reaction_event
    by_cases hmsg : h.message = none ∨ (h.authors ≠ [] ∧ e.userId ∉ h.authors)
    · simp [hexp, hmsg]
    · simp [hexp, hmsg, hk, hcb]
  · intro ex i hcb
    unfold ComponentExecutor.execute
    simp [hcb]

/-- A live, bound, public handler whose callback table is empty. -/
def c5_handler : ReactionHandler :=
  { authors := [], callbacks := [], lastTriggered := 0, message := some 2, timeout := 30 }

/-- An event for the bound handler carrying an unregistered emoji. -/
def c5_event : ReactionEvent :=
  { userId := 7, messageId := 2, emojiId := none, emojiName := some "y" }

/-- Witness for the amended C5 at a concrete handler, event and executor. -/
theorem c5_amended_unregistered_key_witness :
    c5_handler.on_reaction_event c5_event 1
        = { handler := c5_handler, invoked := none, error := none } ∧
    c5_executor.execute c5_interaction = { scheduled := none, error := some .keyError } :=
  ⟨c5_amended_unregistered_key.1 c5_handler c5_event 1 (.name "y") (by decide) rfl rfl,
    c5_amended_unregistered_key.2 c5_executor c5_interaction rfl⟩

/-- A fresh gateway-path context (no response future). -/
def c6_gateway_ctx : Context :=
  { ephemeralDefault := false, hasResponded := false, hasBeenDeferred := false,
    lastResponseId := none, responseFuture := none }

/-- A fresh REST-path context (pending response future). -/
def c6_rest_ctx : Context := { c6_gateway_ctx with responseFuture := some none }

/-- The gateway context after a successful initial response. -/
def c6_after_create : CtxOutcome := c6_gateway_ctx.create_initial_response (some "hi") none

/-- Deferring the gateway context after its initial response was created. -/
def c6_defer_after_create : CtxOutcome := c6_after_create.ctx.defer none

/-- Deferring the REST context after its initial response was created. -/
def c6_rest_defer_after_create : CtxOutcome :=
  (c6_rest_ctx.create_initial_response (some "hi") none).ctx.defer none

/-- C6: evaluation of the response-ordering guards on the code. Three of the
four orderings are guarded as claimed (defer–defer, create–create and
create-after-defer raise `RuntimeError`), but `defer` checks only
`_has_been_deferred`, so defer after a created initial response is not
rejected: on the gateway path it proceeds and issues a second initial
response (a deferred one), and on the REST path it raises
`InvalidStateError` from `Future.set_result` instead of the claimed
programming-error `RuntimeError`. -/
theorem c6_defer_guard_eval :
    ((c6_gateway_ctx.defer none).ctx.defer none).error
        = some (.runtimeError "Context has already been responded to") ∧
    ((c6_gateway_ctx.defer none).ctx.defer none).calls = [] ∧
    (c6_after_create.ctx.create_initial_response (some "again") none).error
        = some (.runtimeError "Initial response has already been created") ∧
    ((c6_gateway_ctx.defer none).ctx.create_initial_response (some "x") none).error
        = some (.runtimeError
          "edit_initial_response must be used to set the initial response after a context has been deferred") ∧
    c6_after_create.error = none ∧
    c6_after_create.calls = [.createInitialMessage (some "hi") 0] ∧
    c6_defer_after_create.error = none ∧
    c6_defer_after_create.calls = [.createInitialDeferred 0] ∧
    c6_rest_defer_after_create.error = some .invalidStateError := by
  decide

/-- C7: triggering jump-to-last on a bound paginator drains the whole
remaining source sequence into the buffer, leaves the cursor at
`buffer.length - 1`, and displays the last buffered page. -/
theorem c7_on_last_drains_and_sets_cursor (p : ReactionPaginator) (m : Nat)
    (hm : p.message = some m) (hne : p.buffer ++ p.iterator ≠ []) :
    (p.on_last).paginator.buffer = p.buffer ++ p.iterator ∧
    (p.on_last).paginator.iterator = [] ∧
    (p.on_last).paginator.index = (p.buffer ++ p.iterator).length - 1 ∧
    (p.on_last).displayed = (p.buffer ++ p.iterator).getLast? ∧
    (p.on_last).error = none := by
  unfold ReactionPaginator.on_last
  cases hL : (p.buffer ++ p.iterator).getLast? with
  | none => exact absurd (List.getLast?_eq_none_iff.mp hL) hne
  | some entry => simp [hL, ReactionPaginator.edit_message, hm]

/-- A bound paginator with one buffered page and one still-unconsumed page. -/
def c7_paginator : ReactionPaginator :=
  { authors := [1], lastTriggered := 0, message := some 5, timeout := 30,
    buffer := [(some "a", none)], index := 1, iterator := [(some "b", none)],
    triggers := DEFAULT_TRIGGERS }

/-- Witness for C7 at the concrete bound paginator `c7_paginator`. -/
theorem c7_on_last_drains_and_sets_cursor_witness :
    (c7_paginator.on_last).paginator.buffer = c7_paginator.buffer ++ c7_paginator.iterator ∧
    (c7_paginator.on_last).paginator.iterator = [] ∧
    (c7_paginator.on_last).paginator.index
        = (c7_paginator.buffer ++ c7_paginator.iterator).length - 1 ∧
    (c7_paginator.on_last).displayed = (c7_paginator.buffer ++ c7_paginator.iterator).getLast? ∧
    (c7_paginator.on_last).error = none :=
  c7_on_last_drains_and_sets_cursor c7_paginator 5 rfl (by decide)

/-- C8: for a fresh, unbound paginator whose source sequence yields no
entries at all, `create_message` fails with the configuration `ValueError`
before any message is created, and the paginator state — unbound message
included — is completely unchanged. -/
theorem c8_create_message_empty_source (p : ReactionPaginator) (mid : Nat)
    (h1 : p.message = none) (h2 : p.buffer = []) (h3 : p.iterator = []) :
    p.create_message mid =
      { paginator := p, created := none, displayed := none,
        error := some (.valueError "ReactionPaginator iterator yielded no pages.") } := by
  unfold ReactionPaginator.create_message ReactionPaginator.get_next_entry seek_iterator
  simp [h1, h2, h3]

/-- A fresh paginator over an empty source sequence. -/
def c8_paginator : ReactionPaginator := mkReactionPaginator [] [1] DEFAULT_TRIGGERS 30 0

/-- Witness for C8 at the concrete empty-source paginator. -/
theorem c8_create_message_empty_source_witness :
    c8_paginator.create_message 42 =
      { paginator := c8_paginator, created := none, displayed := none,
        error := some (.valueError "ReactionPaginator iterator yielded no pages.") } :=
  c8_create_message_empty_source c8_paginator 42 rfl rfl rfl

/-- C9: `ReactionClient.remove_handler` on a message id with no registered
handler raises `KeyError` (the registry is unchanged and no handler value —
in particular not `None` — is returned), despite the declared
`Optional[AbstractReactionHandler]` return type. -/
theorem c9_remove_handler_absent (c : ReactionClient) (mid : Nat)
    (h : dictGet c.listeners mid = none) :
    c.remove_handler mid = { removed := none, client := c, error := some .keyError } := by
  unfold ReactionClient.remove_handler
  simp [h]

/-- A reaction client with an empty registry. -/
def c9_client : ReactionClient := { blacklist := [], listeners := [] }

/-- Witness for C9 at the empty registry and message id 5. -/
theorem c9_remove_handler_absent_witness :
    c9_client.remove_handler 5
      = { removed := none, client := c9_client, error := some .keyError } :=
  c9_remove_handler_absent c9_client 5 rfl

/-- C10: `ReactionPaginator.create_message` called while the paginator is
already bound raises `RuntimeError("ReactionPaginator is already running")`
and leaves the whole paginator state — bound message, buffer, cursor and
source iterator — unchanged, creating no message. -/
theorem c10_create_message_already_bound (p : ReactionPaginator) (m mid : Nat)
    (h : p.message = some m) :
    p.create_message mid =
      { paginator := p, created := none, displayed := none,
        error := some (.runtimeError "ReactionPaginator is already running") } := by
  unfold ReactionPaginator.create_message
  simp [h]

/-- A paginator already bound to message 3 with pages left in the source. -/
def c10_paginator : ReactionPaginator :=
  { authors := [1], lastTriggered := 0, message := some 3, timeout := 30,
    buffer := [(some "a", none)], index := 1, iterator := [(some "b", none)],
    triggers := DEFAULT_TRIGGERS }

/-- Witness for C10 at the concrete bound paginator `c10_paginator`. -/
theorem c10_create_message_already_bound_witness :
    c10_paginator.create_message 77 =
      { paginator := c10_paginator, created := none, displayed := none,
        error := some (.runtimeError "ReactionPaginator is already running") } :=
  c10_create_message_already_bound c10_paginator 3 77 rfl

end Yuyo
